import Mathlib

/-!
Shallow embedding of the studio-inventory mobile app's checkout/checkin
transaction flow (src/app/(home)/checkout.tsx) and of the equipment
creation / merge flow (AddEquipmentScreen), together with proofs of the
specification's claims about them.

The remote record store (supabase) is modelled as an explicit `Db` value
threaded through the operations.  Each supabase call returns its error in
a result object rather than throwing; the source code of `confirmAndSubmit`
discards those results for every write, which the embedding mirrors via a
`FailSpec` saying which remote writes fail (a failing write leaves the
store unchanged; the returned error object is discarded exactly as in the
source).  `JSON.parse` of the scan payload is external to the repository,
so a scan datum carries the literal payload text together with the parse
outcome (`none` = the parse threw, `some item` = it succeeded with the
given `.item` field).
-/

namespace StudioInventory

/-- Transaction mode, the `Mode` union type of checkout.tsx. -/
inductive Mode
  | checkout
  | checkin
deriving DecidableEq, Repr

/-- String value of a mode, as sent in the `type` column of a transaction. -/
def Mode.str : Mode → String
  | .checkout => "checkout"
  | .checkin => "checkin"

/-- The `FlowStep` union type of checkout.tsx. -/
inductive FlowStep
  | scan
  | confirm
  | photo
  | success
deriving DecidableEq, Repr

/-- Row of the `equipment` table (fields touched by the embedded screens). -/
structure EquipmentRow where
  id : String
  studio_id : String
  name : String
  category : String
  total_quantity : Int
  available_quantity : Int
  sku : Option String
  photo_url : Option String
  notes : Option String
deriving DecidableEq, Repr

/-- Row of the `equipment_items` table (one trackable unit). -/
structure EquipmentItemRow where
  id : String
  equipment_id : String
  studio_id : String
  code : String
  code_type : String
  status : String
deriving DecidableEq, Repr

/-- Row of the `transactions` table, as inserted by `confirmAndSubmit`. -/
structure TransactionRow where
  studio_id : Option String
  equipment_id : String
  equipment_item_id : String
  user_id : String
  type : String
  quantity : Int
  photo_url : Option String
  approval_status : Option String
deriving DecidableEq, Repr

/-- An object in supabase blob storage, identified by bucket and path. -/
structure StorageObject where
  bucket : String
  path : String
deriving DecidableEq, Repr

/-- The remote record store. -/
structure Db where
  equipment : List EquipmentRow
  equipment_items : List EquipmentItemRow
  transactions : List TransactionRow
  storage : List StorageObject
deriving DecidableEq, Repr

/-- The `CartItem` interface of checkout.tsx. -/
structure CartItem where
  unitId : String
  equipmentId : String
  code : String
  equipmentName : String
  photoUri : Option String
deriving DecidableEq, Repr

/-- The React state of `CheckoutScreen` relevant to the transaction flow. -/
structure SessionState where
  mode : Mode
  step : FlowStep
  cart : List CartItem
  currentItem : Option CartItem
  processing : Bool
  error : Option String
  scanned : Bool
deriving DecidableEq, Repr

/-- Initial state of `CheckoutScreen` (the `useState` defaults). -/
def initialState : SessionState :=
  { mode := Mode.checkout, step := FlowStep.scan, cart := [], currentItem := none,
    processing := false, error := none, scanned := false }

/-- Toggling the mode buttons calls `setMode`. -/
def setMode (m : Mode) (st : SessionState) : SessionState :=
  { st with mode := m }

/-- A scanned payload: the raw string `data` plus the outcome of
`JSON.parse(data)` (`none` when the parse throws; `some item` when it
succeeds, with `item` the value of the parsed object's `.item` field,
`none` when that field is absent). -/
structure ScanData where
  text : String
  parsed : Option (Option String)
deriving DecidableEq, Repr

/-- Lines 63-69 of checkout.tsx: `let unitId = data; try { const parsed =
JSON.parse(data); if (parsed.item) unitId = parsed.item } catch ...`.
JS truthiness: an empty-string `.item` field is falsy, so it is not used. -/
def resolveUnitId (d : ScanData) : String :=
  match d.parsed with
  | some (some it) => if it = "" then d.text else it
  | _ => d.text

/-- The unit lookup `.or(id.eq.UNITID,code.eq.DATA).single()` of lines
71-75: `.single()` succeeds exactly when one row matches the filter. -/
def findSingleUnit (db : Db) (unitId theData : String) : Option EquipmentItemRow :=
  match db.equipment_items.filter (fun u => u.id == unitId || u.code == theData) with
  | [u] => some u
  | _ => none

/-- Single-row lookup of an equipment record by id (used by the embedded
`equipment(id, name, studio_id)` join of the scan select, and by the
`select('available_quantity').eq('id', ...).single()` read of commit). -/
def findEquipment (l : List EquipmentRow) (eid : String) : Option EquipmentRow :=
  match l.filter (fun r => r.id == eid) with
  | [e] => some e
  | _ => none

/-- Line 85 condition `studioId && unit.equipment.studio_id !== studioId`:
the search parameter is JS-falsy when absent or the empty string. -/
def studioMismatch (studioId : Option String) (sid : String) : Bool :=
  match studioId with
  | none => false
  | some s => s != "" && sid != s

/-- The scan handler `handleBarCodeScanned` of checkout.tsx (lines 56-127),
as a pure transition on the session state.  The handler performs a single
remote read and no remote write, so the store is returned unchanged. -/
def handleBarCodeScanned (studioId : Option String) (d : ScanData)
    (st : SessionState) (db : Db) : SessionState × Db :=
  if st.scanned || st.processing then (st, db)
  else
    let st1 : SessionState := { st with scanned := true, error := none, processing := true }
    let unitId := resolveUnitId d
    match findSingleUnit db unitId d.text with
    | none =>
      ({ st1 with error := some "Item not found", scanned := false, processing := false }, db)
    | some unit =>
      match findEquipment db.equipment unit.equipment_id with
      | none =>
        -- the embedded `unit.equipment` is null, so `unit.equipment.studio_id`
        -- throws a TypeError, landing in the handler's catch clause
        ({ st1 with error := some "Scan failed", scanned := false, processing := false }, db)
      | some equip =>
        if studioMismatch studioId equip.studio_id then
          ({ st1 with error := some "Item belongs to different studio",
                      scanned := false, processing := false }, db)
        else if unit.id ∈ st.cart.map CartItem.unitId then
          ({ st1 with error := some "Item already in cart",
                      scanned := false, processing := false }, db)
        else if st.mode = Mode.checkout ∧ unit.status ≠ "available" then
          ({ st1 with error := some "Item is already checked out",
                      scanned := false, processing := false }, db)
        else if st.mode = Mode.checkin ∧ unit.status = "available" then
          ({ st1 with error := some "Item is not checked out",
                      scanned := false, processing := false }, db)
        else
          ({ st1 with
              currentItem := some { unitId := unit.id, equipmentId := equip.id,
                                    code := unit.code, equipmentName := equip.name,
                                    photoUri := none },
              step := FlowStep.confirm, processing := false }, db)

/-- The `resetScanner` callback of checkout.tsx. -/
def resetScanner (st : SessionState) : SessionState :=
  { st with currentItem := none, scanned := false, step := FlowStep.scan, error := none }

/-- The project URL hard-coded in src/lib/supabase.ts. -/
def supabaseUrl : String := "https://btadhbltkgjsgkfsgrjj.supabase.co"

/-- Resolution of `storage.from(bucket).getPublicUrl(path)`: a pure
function of bucket and path. -/
def getPublicUrl (bucket path : String) : String :=
  supabaseUrl ++ "/storage/v1/object/public/" ++ bucket ++ "/" ++ path

/-- JS template interpolation of an optional search parameter: an absent
parameter prints as the literal string "undefined". -/
def optParamStr : Option String → String
  | none => "undefined"
  | some s => s

/-- Which of the remote operations of one commit fail.  A supabase call
signals failure through the `error` field of its result object, which
`confirmAndSubmit` discards for every write; only the local photo fetch
(`fetch(photoUri)` / `.blob()`) signals failure by throwing. -/
structure FailSpec where
  photoFetchThrows : Bool
  uploadFails : Bool
  insertFails : Bool
  unitUpdateFails : Bool
  equipReadFails : Bool
  equipUpdateFails : Bool
deriving DecidableEq, Repr

/-- The run in which every remote operation succeeds. -/
def noFail : FailSpec :=
  { photoFetchThrows := false, uploadFails := false, insertFails := false,
    unitUpdateFails := false, equipReadFails := false, equipUpdateFails := false }

/-- Outcome of one `confirmAndSubmit` run: the new session state, the new
remote store, and the message of the `Alert.alert('Error', ...)` dialog
when the catch clause ran. -/
structure CommitResult where
  state : SessionState
  db : Db
  alert : Option String
deriving DecidableEq, Repr

/-- The `confirmAndSubmit` callback of checkout.tsx (lines 158-221).
`now` stands for `Date.now()`.  A failing write leaves the store
untouched; its error result is discarded, as in the source, so the flow
continues.  The only aborting failure is a thrown photo fetch, which
lands in the catch clause. -/
def confirmAndSubmit (studioId : Option String) (user : Option String) (now : Nat)
    (f : FailSpec) (st : SessionState) (db : Db) : CommitResult :=
  match st.currentItem, user with
  | some item, some uid =>
    let st1 : SessionState := { st with processing := true }
    if item.photoUri.isSome && f.photoFetchThrows then
      { state := { st1 with processing := false }, db := db,
        alert := some "Network request failed" }
    else
      let fileName := optParamStr studioId ++ "/" ++ item.unitId ++ "/" ++ toString now ++ ".jpg"
      let photoUrl : Option String :=
        match item.photoUri with
        | none => none
        | some _ => some (getPublicUrl "transaction-photos" fileName)
      let db1 :=
        match item.photoUri with
        | none => db
        | some _ =>
          if f.uploadFails then db
          else { db with storage := db.storage ++ [⟨"transaction-photos", fileName⟩] }
      let tx : TransactionRow :=
        { studio_id := studioId, equipment_id := item.equipmentId,
          equipment_item_id := item.unitId, user_id := uid, type := st.mode.str,
          quantity := 1, photo_url := photoUrl,
          approval_status := if st.mode = Mode.checkout then some "pending" else none }
      let db2 := if f.insertFails then db1
                 else { db1 with transactions := db1.transactions ++ [tx] }
      let db3 :=
        if f.unitUpdateFails then db2
        else { db2 with equipment_items := db2.equipment_items.map (fun u =>
          if u.id = item.unitId then
            { u with status := if st.mode = Mode.checkout then "checked_out" else "available" }
          else u) }
      let equip := if f.equipReadFails then none
                   else findEquipment db3.equipment item.equipmentId
      let db4 :=
        match equip with
        | none => db3
        | some e =>
          let newQty := if st.mode = Mode.checkout then e.available_quantity - 1
                        else e.available_quantity + 1
          if f.equipUpdateFails then db3
          else { db3 with equipment := db3.equipment.map (fun r =>
            if r.id = item.equipmentId then { r with available_quantity := newQty } else r) }
      { state := { st1 with step := FlowStep.success, processing := false },
        db := db4, alert := none }
  | _, _ => { state := st, db := db, alert := none }

/-- Form state of `AddEquipmentScreen`.  The quantity field holds the
result of `parseInt(form.quantity)` (`none` when that is NaN). -/
structure AddForm where
  name : String
  category : String
  quantity : Option Int
  sku : String
  notes : String
deriving DecidableEq, Repr

/-- Evaluation of the JS `.trim()` method: strip leading and trailing
whitespace. -/
def jsTrim (s : String) : String :=
  String.mk (((s.data.dropWhile Char.isWhitespace).reverse.dropWhile Char.isWhitespace).reverse)

/-- Evaluation of `parseInt(form.quantity) || 1`: NaN and 0 are falsy. -/
def effQuantity (q : Option Int) : Int :=
  match q with
  | none => 1
  | some n => if n = 0 then 1 else n

/-- Evaluation of `.padStart(3, '0')`. -/
def padStart3 (s : String) : String :=
  if s.length < 3 then String.mk (List.replicate (3 - s.length) '0') ++ s else s

/-- Unit code template `BASE-IDX-RANDOM` of AddEquipmentScreen. -/
def unitCode (base idx randSuffix : String) : String :=
  base ++ "-" ++ idx ++ "-" ++ randSuffix

/-- The `SimilarEquipment` interface of AddEquipmentScreen: the merge
target as read by the similar-equipment search. -/
structure SimilarEquipment where
  id : String
  name : String
  category : String
  total_quantity : Int
  available_quantity : Int
  photo_url : Option String
deriving DecidableEq, Repr

/-- Outcome of an AddEquipmentScreen action: the new store and the
message of an `Alert.alert('Error', ...)` dialog, if any. -/
structure AddResult where
  db : Db
  alert : Option String
deriving DecidableEq, Repr

/-- The `handleSubmit` callback of AddEquipmentScreen (success path of
the remote writes; the screen checks and re-throws their errors).
`newEquipId` is the id the store assigns to the inserted equipment row,
`itemId i` the id assigned to the i-th inserted unit, and `rand i` the
`Math.random()` suffix of its code. -/
def handleSubmit (studioId : String) (form : AddForm) (photoUri : Option String)
    (now : Nat) (newEquipId : String) (itemId : Nat → String) (rand : Nat → String)
    (db : Db) : AddResult :=
  if jsTrim form.name = "" then { db := db, alert := some "Please enter equipment name" }
  else
    match photoUri with
    | none => { db := db, alert := some "Please add a photo" }
    | some _ =>
      let fileName := studioId ++ "/" ++ toString now ++ ".jpg"
      let photoUrl := getPublicUrl "equipment-photos" fileName
      let quantity := effQuantity form.quantity
      let equipRow : EquipmentRow :=
        { id := newEquipId, studio_id := studioId, name := jsTrim form.name,
          category := form.category, total_quantity := quantity,
          available_quantity := quantity,
          sku := if jsTrim form.sku = "" then none else some (jsTrim form.sku),
          photo_url := some photoUrl,
          notes := if jsTrim form.notes = "" then none else some (jsTrim form.notes) }
      let items := (List.range quantity.toNat).map (fun i =>
        let idx := padStart3 (toString (i + 1))
        let base := if form.sku = "" then (form.name.take 3).toUpper else form.sku
        ({ id := itemId i, equipment_id := newEquipId, studio_id := studioId,
           code := unitCode base idx (rand i), code_type := "qr",
           status := "available" } : EquipmentItemRow))
      { db := { db with
          storage := db.storage ++ [⟨"equipment-photos", fileName⟩],
          equipment := db.equipment ++ [equipRow],
          equipment_items := db.equipment_items ++ items },
        alert := none }

/-- The `handleMergeConfirm` callback of AddEquipmentScreen: insert the
new units for the existing equipment, then write back the quantities
computed from the values read by the similar-equipment search. -/
def handleMergeConfirm (studioId : String) (form : AddForm) (target : SimilarEquipment)
    (itemId : Nat → String) (rand : Nat → String) (db : Db) : AddResult :=
  let quantity := effQuantity form.quantity
  let existingTotal := target.total_quantity
  let existingAvailable := target.available_quantity
  let items := (List.range quantity.toNat).map (fun (i : Nat) =>
    let idx := padStart3 (toString (existingTotal + Int.ofNat i + 1))
    let base := if form.sku = "" then (target.name.take 3).toUpper else form.sku
    ({ id := itemId i, equipment_id := target.id, studio_id := studioId,
       code := unitCode base idx (rand i), code_type := "qr",
       status := "available" } : EquipmentItemRow))
  let db1 := { db with equipment_items := db.equipment_items ++ items }
  let db2 := { db1 with equipment := db1.equipment.map (fun r =>
    if r.id = target.id then
      { r with total_quantity := existingTotal + quantity,
               available_quantity := existingAvailable + quantity }
    else r) }
  { db := db2, alert := none }

/-- Number of units of the given equipment currently checked out. -/
def checkedOutCount (db : Db) (eid : String) : Nat :=
  (db.equipment_items.filter (fun u => u.equipment_id == eid && u.status == "checked_out")).length

/-- The consistency invariant of the data model: exactly
`total_quantity - available_quantity` units of an equipment are
checked_out, and the available quantity lies between 0 and the total. -/
def quantityInvariant (db : Db) (r : EquipmentRow) : Prop :=
  (checkedOutCount db r.id : Int) = r.total_quantity - r.available_quantity ∧
  0 ≤ r.available_quantity ∧ r.available_quantity ≤ r.total_quantity

instance (db : Db) (r : EquipmentRow) : Decidable (quantityInvariant db r) := by
  unfold quantityInvariant
  infer_instance

/-! ## Concrete fixtures used by the witnesses -/

/-- A sample equipment record: studio s1, 5 total units, 3 available. -/
def camEquip : EquipmentRow :=
  { id := "e1", studio_id := "s1", name := "Cam", category := "Camera",
    total_quantity := 5, available_quantity := 3, sku := none,
    photo_url := none, notes := none }

/-- A sample available unit of `camEquip` with code C1. -/
def camUnit : EquipmentItemRow :=
  { id := "u1", equipment_id := "e1", studio_id := "s1",
    code := "C1", code_type := "qr", status := "available" }

/-- A sample store holding `camEquip` and `camUnit`. -/
def sampleDb : Db :=
  { equipment := [camEquip], equipment_items := [camUnit],
    transactions := [], storage := [] }

/-- The session state right after `camUnit` was scanned and staged in
checkout mode. -/
def stagedState : SessionState :=
  { mode := Mode.checkout, step := FlowStep.confirm, cart := [],
    currentItem := some { unitId := "u1", equipmentId := "e1", code := "C1",
                          equipmentName := "Cam", photoUri := none },
    processing := false, error := none, scanned := true }

/-! ## Claims -/

/-- C1: for every commit of a staged unit (all remote operations
succeeding, the parent equipment row readable), committing in checkout
mode sets the unit's status to checked_out and writes the parent
equipment's available_quantity as the previously read value minus 1;
committing in checkin mode sets the status to available and writes the
read value plus 1; the flow reaches the success step. -/
theorem commit_flips_status_and_adjusts_quantity
    (studioId user : Option String) (now : Nat) (st : SessionState) (db : Db)
    (item : CartItem) (uid : String) (e : EquipmentRow)
    (hcur : st.currentItem = some item) (huser : user = some uid)
    (hread : db.equipment.filter (fun r => r.id == item.equipmentId) = [e]) :
    (confirmAndSubmit studioId user now noFail st db).state.step = FlowStep.success ∧
    (∀ w ∈ db.equipment_items, w.id = item.unitId →
      { w with status := if st.mode = Mode.checkout then "checked_out" else "available" }
        ∈ (confirmAndSubmit studioId user now noFail st db).db.equipment_items) ∧
    { e with available_quantity :=
        if st.mode = Mode.checkout then e.available_quantity - 1 else e.available_quantity + 1 }
      ∈ (confirmAndSubmit studioId user now noFail st db).db.equipment := by
  have he' : e ∈ db.equipment.filter (fun r => r.id == item.equipmentId) := by
    rw [hread]; exact List.mem_singleton_self e
  have heid : e.id = item.equipmentId := by
    have h := List.of_mem_filter he'
    simpa using h
  have hemem : e ∈ db.equipment := List.mem_of_mem_filter he'
  refine ⟨?_, ?_, ?_⟩
  · cases hp : item.photoUri <;>
      simp [confirmAndSubmit, hcur, huser, noFail, hp]
  · intro w hw hwid
    cases hp : item.photoUri <;>
      · simp [confirmAndSubmit, hcur, huser, noFail, hp, findEquipment, hread]
        exact ⟨w, hw, by rw [if_pos hwid]⟩
  · cases hp : item.photoUri <;>
      · simp [confirmAndSubmit, hcur, huser, noFail, hp, findEquipment, hread]
        exact ⟨e, hemem, by rw [if_pos heid]⟩

/-- Witness for C1: one checkout commit against available_quantity 3 of
total 5 yields available_quantity 2 and a checked_out unit. -/
theorem commit_flips_status_and_adjusts_quantity_witness :
    sampleDb.equipment.filter (fun r => r.id == "e1") = [camEquip] ∧
    camEquip.available_quantity = 3 ∧ camEquip.total_quantity = 5 ∧
    { camEquip with available_quantity := 2 }
      ∈ (confirmAndSubmit (some "s1") (some "usr") 111 noFail stagedState sampleDb).db.equipment ∧
    { camUnit with status := "checked_out" }
      ∈ (confirmAndSubmit (some "s1") (some "usr") 111 noFail stagedState sampleDb).db.equipment_items ∧
    (confirmAndSubmit (some "s1") (some "usr") 111 noFail stagedState sampleDb).state.step
      = FlowStep.success := by
  have h := commit_flips_status_and_adjusts_quantity (some "s1") (some "usr") 111 stagedState
    sampleDb ⟨"u1", "e1", "C1", "Cam", none⟩ "usr" camEquip rfl rfl (by decide)
  refine ⟨by decide, by decide, by decide, ?_, ?_, h.1⟩
  · simpa [camEquip, stagedState] using h.2.2
  · simpa [camUnit, stagedState] using h.2.1 camUnit (by decide) (by decide)

/-- C7: every commit issues exactly one transaction insert, whose row has
type equal to the active mode, quantity 1, approval_status pending for
checkout and null for checkin, and whose photo_url is null without a
photo and the resolved public URL of the uploaded blob with one (the
blob having been uploaded to that path of the transaction-photos
bucket). -/
theorem commit_inserts_single_transaction
    (studioId user : Option String) (now : Nat) (st : SessionState) (db : Db)
    (item : CartItem) (uid : String)
    (hcur : st.currentItem = some item) (huser : user = some uid) :
    (confirmAndSubmit studioId user now noFail st db).db.transactions =
      db.transactions ++
        [{ studio_id := studioId, equipment_id := item.equipmentId,
           equipment_item_id := item.unitId, user_id := uid, type := st.mode.str,
           quantity := 1,
           photo_url := item.photoUri.map (fun _ =>
             getPublicUrl "transaction-photos"
               (optParamStr studioId ++ "/" ++ item.unitId ++ "/" ++ toString now ++ ".jpg")),
           approval_status := if st.mode = Mode.checkout then some "pending" else none }] ∧
    (item.photoUri.isSome = true →
      StorageObject.mk "transaction-photos"
          (optParamStr studioId ++ "/" ++ item.unitId ++ "/" ++ toString now ++ ".jpg")
        ∈ (confirmAndSubmit studioId user now noFail st db).db.storage) := by
  constructor
  · cases hp : item.photoUri <;>
      cases he : findEquipment db.equipment item.equipmentId <;>
        simp [confirmAndSubmit, hcur, huser, noFail, hp, he]
  · intro hps
    cases hp : item.photoUri
    · simp [hp] at hps
    · cases he : findEquipment db.equipment item.equipmentId <;>
        simp [confirmAndSubmit, hcur, huser, noFail, hp, he]

/-- The staged state with a captured condition photo. -/
def stagedPhotoState : SessionState :=
  { stagedState with
    currentItem := some { unitId := "u1", equipmentId := "e1", code := "C1",
                          equipmentName := "Cam", photoUri := some "file:p.jpg" } }

/-- Witness for C7: a checkout commit with a photo inserts one pending
transaction row whose photo_url is the public URL of the uploaded
blob. -/
theorem commit_inserts_single_transaction_witness :
    stagedPhotoState.currentItem = some ⟨"u1", "e1", "C1", "Cam", some "file:p.jpg"⟩ ∧
    (confirmAndSubmit (some "s1") (some "usr") 111 noFail stagedPhotoState sampleDb).db.transactions =
      [{ studio_id := some "s1", equipment_id := "e1", equipment_item_id := "u1",
         user_id := "usr", type := "checkout", quantity := 1,
         photo_url := some (getPublicUrl "transaction-photos" "s1/u1/111.jpg"),
         approval_status := some "pending" }] ∧
    StorageObject.mk "transaction-photos" "s1/u1/111.jpg"
      ∈ (confirmAndSubmit (some "s1") (some "usr") 111 noFail stagedPhotoState sampleDb).db.storage := by
  have h := commit_inserts_single_transaction (some "s1") (some "usr") 111 stagedPhotoState
    sampleDb ⟨"u1", "e1", "C1", "Cam", some "file:p.jpg"⟩ "usr" rfl rfl
  refine ⟨rfl, ?_, ?_⟩
  · simpa [sampleDb, stagedState, Mode.str, optParamStr] using h.1
  · simpa [optParamStr] using h.2 rfl

/-- C10: when the commit's read of the parent equipment record returns
no row, the available_quantity update is silently skipped (the equipment
table is unchanged, no alert), while the transaction insert and the
unit-status update have already been performed and the flow still
reports success. -/
theorem missing_equipment_row_skips_quantity_update
    (studioId user : Option String) (now : Nat) (st : SessionState) (db : Db)
    (item : CartItem) (uid : String)
    (hcur : st.currentItem = some item) (huser : user = some uid)
    (hnone : db.equipment.filter (fun r => r.id == item.equipmentId) = []) :
    (confirmAndSubmit studioId user now noFail st db).state.step = FlowStep.success ∧
    (confirmAndSubmit studioId user now noFail st db).alert = none ∧
    (confirmAndSubmit studioId user now noFail st db).db.equipment = db.equipment ∧
    (confirmAndSubmit studioId user now noFail st db).db.transactions.length
      = db.transactions.length + 1 ∧
    (confirmAndSubmit studioId user now noFail st db).db.equipment_items =
      db.equipment_items.map (fun u =>
        if u.id = item.unitId then
          { u with status := if st.mode = Mode.checkout then "checked_out" else "available" }
        else u) := by
  refine ⟨?_, ?_, ?_, ?_, ?_⟩ <;>
    cases hp : item.photoUri <;>
      simp [confirmAndSubmit, hcur, huser, noFail, hp, findEquipment, hnone]

/-- A store holding the staged unit but no row for its parent equipment. -/
def orphanDb : Db :=
  { equipment := [], equipment_items := [camUnit], transactions := [], storage := [] }

/-- Witness for C10: committing against a store without the parent
equipment row flips the unit, appends the transaction, reports success
and leaves the (empty) equipment table untouched. -/
theorem missing_equipment_row_skips_quantity_update_witness :
    orphanDb.equipment.filter (fun r => r.id == "e1") = [] ∧
    (confirmAndSubmit (some "s1") (some "usr") 111 noFail stagedState orphanDb).state.step
      = FlowStep.success ∧
    (confirmAndSubmit (some "s1") (some "usr") 111 noFail stagedState orphanDb).alert = none ∧
    (confirmAndSubmit (some "s1") (some "usr") 111 noFail stagedState orphanDb).db.equipment = [] ∧
    (confirmAndSubmit (some "s1") (some "usr") 111 noFail stagedState orphanDb).db.transactions.length = 1 ∧
    (confirmAndSubmit (some "s1") (some "usr") 111 noFail stagedState orphanDb).db.equipment_items =
      [{ camUnit with status := "checked_out" }] := by
  have h := missing_equipment_row_skips_quantity_update (some "s1") (some "usr") 111 stagedState
    orphanDb ⟨"u1", "e1", "C1", "Cam", none⟩ "usr" rfl rfl (by decide)
  refine ⟨by decide, h.1, h.2.1, by simpa [orphanDb] using h.2.2.1,
          by simpa [orphanDb] using h.2.2.2.1, ?_⟩
  have h5 := h.2.2.2.2
  simp only [orphanDb] at h5
  simpa [camUnit, stagedState] using h5

/-- The run in which the transaction insert fails and every other remote
operation succeeds. -/
def insertFailSpec : FailSpec := { noFail with insertFails := true }

/-- Counterexample to C2 as stated: with the transaction insert failing,
the remaining steps (unit-status update and equipment-quantity update)
are still performed, no error is surfaced, and the commit reports
success. -/
theorem insert_failure_still_reports_success :
    insertFailSpec.insertFails = true ∧
    (confirmAndSubmit (some "s1") (some "usr") 111 insertFailSpec stagedState sampleDb).state.step
      = FlowStep.success ∧
    (confirmAndSubmit (some "s1") (some "usr") 111 insertFailSpec stagedState sampleDb).alert = none ∧
    (confirmAndSubmit (some "s1") (some "usr") 111 insertFailSpec stagedState sampleDb).db.transactions = [] ∧
    { camUnit with status := "checked_out" }
      ∈ (confirmAndSubmit (some "s1") (some "usr") 111 insertFailSpec stagedState sampleDb).db.equipment_items ∧
    { camEquip with available_quantity := 2 }
      ∈ (confirmAndSubmit (some "s1") (some "usr") 111 insertFailSpec stagedState sampleDb).db.equipment := by
  decide

/-- C2 as amended: the only failure that aborts the commit and surfaces
an error is a thrown local photo fetch, which leaves the store unchanged
and does not report success; whenever the photo fetch does not throw,
the commit reports success with no error dialog regardless of which
remote writes failed, because their error results are discarded. -/
theorem commit_error_discard_semantics
    (studioId user : Option String) (now : Nat) (f : FailSpec) (st : SessionState) (db : Db)
    (item : CartItem) (uid : String)
    (hcur : st.currentItem = some item) (huser : user = some uid) :
    ((item.photoUri.isSome && f.photoFetchThrows) = true →
      (confirmAndSubmit studioId user now f st db).alert.isSome = true ∧
      (confirmAndSubmit studioId user now f st db).state.step = st.step ∧
      (confirmAndSubmit studioId user now f st db).db = db) ∧
    ((item.photoUri.isSome && f.photoFetchThrows) = false →
      (confirmAndSubmit studioId user now f st db).state.step = FlowStep.success ∧
      (confirmAndSubmit studioId user now f st db).alert = none) := by
  constructor
  · intro h
    simp [confirmAndSubmit, hcur, huser, h]
  · intro h
    simp [confirmAndSubmit, hcur, huser, h]

/-- The run in which the local photo fetch throws. -/
def photoThrowSpec : FailSpec := { noFail with photoFetchThrows := true }

/-- Witness for the amended C2: a thrown photo fetch surfaces an alert,
stays on the confirmation step and leaves the store unchanged, while the
insert-failure run still reports success with no alert. -/
theorem commit_error_discard_semantics_witness :
    stagedPhotoState.currentItem = some ⟨"u1", "e1", "C1", "Cam", some "file:p.jpg"⟩ ∧
    ((confirmAndSubmit (some "s1") (some "usr") 111 photoThrowSpec stagedPhotoState sampleDb).alert.isSome = true ∧
     (confirmAndSubmit (some "s1") (some "usr") 111 photoThrowSpec stagedPhotoState sampleDb).state.step
       = stagedPhotoState.step ∧
     (confirmAndSubmit (some "s1") (some "usr") 111 photoThrowSpec stagedPhotoState sampleDb).db = sampleDb) ∧
    ((confirmAndSubmit (some "s1") (some "usr") 111 insertFailSpec stagedPhotoState sampleDb).state.step
       = FlowStep.success ∧
     (confirmAndSubmit (some "s1") (some "usr") 111 insertFailSpec stagedPhotoState sampleDb).alert = none) := by
  refine ⟨rfl, ?_, ?_⟩
  · exact (commit_error_discard_semantics (some "s1") (some "usr") 111 photoThrowSpec
      stagedPhotoState sampleDb ⟨"u1", "e1", "C1", "Cam", some "file:p.jpg"⟩ "usr" rfl rfl).1
      (by decide)
  · exact (commit_error_discard_semantics (some "s1") (some "usr") 111 insertFailSpec
      stagedPhotoState sampleDb ⟨"u1", "e1", "C1", "Cam", some "file:p.jpg"⟩ "usr" rfl rfl).2
      (by decide)

/-- C3 (evaluation of the claim at its failing input): the cart list is
never populated by the flow, so scanning the same unit id twice within
one uncommitted session never yields the AlreadyStaged rejection: while
a unit is staged a second scan event is ignored outright, and after a
cancel the same unit is simply staged again with no error. -/
theorem rescan_never_rejected_as_duplicate :
    (handleBarCodeScanned (some "s1") ⟨"C1", none⟩ initialState sampleDb).1.step
      = FlowStep.confirm ∧
    (handleBarCodeScanned (some "s1") ⟨"C1", none⟩ initialState sampleDb).1.currentItem
      = some ⟨"u1", "e1", "C1", "Cam", none⟩ ∧
    (handleBarCodeScanned (some "s1") ⟨"C1", none⟩
        (handleBarCodeScanned (some "s1") ⟨"C1", none⟩ initialState sampleDb).1 sampleDb).1
      = (handleBarCodeScanned (some "s1") ⟨"C1", none⟩ initialState sampleDb).1 ∧
    (handleBarCodeScanned (some "s1") ⟨"C1", none⟩
        (resetScanner (handleBarCodeScanned (some "s1") ⟨"C1", none⟩ initialState sampleDb).1)
        sampleDb).1.error = none ∧
    (handleBarCodeScanned (some "s1") ⟨"C1", none⟩
        (resetScanner (handleBarCodeScanned (some "s1") ⟨"C1", none⟩ initialState sampleDb).1)
        sampleDb).1.step = FlowStep.confirm := by
  decide

/-- C4: for a resolved unit scanned under an active studio context, the
validation checks run in order — studio match first (WrongStudio),
cart-duplicate second (AlreadyStaged), status legality third
(NotAvailable for checkout of a non-available unit, NotCheckedOut for
checkin of an available one) — and a unit passing all three is staged
for confirmation. -/
theorem scan_validation_order
    (s : String) (d : ScanData) (st : SessionState) (db : Db)
    (unit : EquipmentItemRow) (equip : EquipmentRow)
    (hs : s ≠ "")
    (hsc : st.scanned = false) (hpr : st.processing = false)
    (hunit : findSingleUnit db (resolveUnitId d) d.text = some unit)
    (hequip : findEquipment db.equipment unit.equipment_id = some equip) :
    (equip.studio_id ≠ s →
      (handleBarCodeScanned (some s) d st db).1.error = some "Item belongs to different studio" ∧
      (handleBarCodeScanned (some s) d st db).1.currentItem = st.currentItem ∧
      (handleBarCodeScanned (some s) d st db).1.step = st.step) ∧
    (equip.studio_id = s → unit.id ∈ st.cart.map CartItem.unitId →
      (handleBarCodeScanned (some s) d st db).1.error = some "Item already in cart") ∧
    (equip.studio_id = s → unit.id ∉ st.cart.map CartItem.unitId →
      st.mode = Mode.checkout → unit.status ≠ "available" →
      (handleBarCodeScanned (some s) d st db).1.error = some "Item is already checked out") ∧
    (equip.studio_id = s → unit.id ∉ st.cart.map CartItem.unitId →
      st.mode = Mode.checkin → unit.status = "available" →
      (handleBarCodeScanned (some s) d st db).1.error = some "Item is not checked out") ∧
    (equip.studio_id = s → unit.id ∉ st.cart.map CartItem.unitId →
      (st.mode = Mode.checkout → unit.status = "available") →
      (st.mode = Mode.checkin → unit.status ≠ "available") →
      (handleBarCodeScanned (some s) d st db).1.error = none ∧
      (handleBarCodeScanned (some s) d st db).1.step = FlowStep.confirm ∧
      (handleBarCodeScanned (some s) d st db).1.currentItem =
        some { unitId := unit.id, equipmentId := equip.id, code := unit.code,
               equipmentName := equip.name, photoUri := none }) := by
  refine ⟨?_, ?_, ?_, ?_, ?_⟩
  · intro hne
    simp [handleBarCodeScanned, hsc, hpr, hunit, hequip, studioMismatch, hs, hne]
  · intro heq hmem
    simp [handleBarCodeScanned, hsc, hpr, hunit, hequip, studioMismatch, heq, hmem]
  · intro heq hmem hmode hstatus
    simp [handleBarCodeScanned, hsc, hpr, hunit, hequip, studioMismatch, heq, hmem, hmode, hstatus]
  · intro heq hmem hmode hstatus
    simp [handleBarCodeScanned, hsc, hpr, hunit, hequip, studioMismatch, heq, hmem, hmode, hstatus]
  · intro heq hmem hco hci
    cases hm : st.mode
    · simp [handleBarCodeScanned, hsc, hpr, hunit, hequip, studioMismatch, heq, hmem, hm, hco hm]
    · simp [handleBarCodeScanned, hsc, hpr, hunit, hequip, studioMismatch, heq, hmem, hm, hci hm]

/-- The sample equipment rehoused in another studio. -/
def foreignEquip : EquipmentRow := { camEquip with studio_id := "s9" }

/-- The sample store with its equipment owned by studio s9. -/
def foreignDb : Db := { sampleDb with equipment := [foreignEquip] }

/-- Witness for C4: a cross-studio scan is rejected as a studio
mismatch, and a same-studio available unit passes all checks and is
staged. -/
theorem scan_validation_order_witness :
    ("s1" : String) ≠ "" ∧
    initialState.scanned = false ∧ initialState.processing = false ∧
    findSingleUnit foreignDb "C1" "C1" = some camUnit ∧
    findEquipment foreignDb.equipment "e1" = some foreignEquip ∧
    foreignEquip.studio_id ≠ "s1" ∧
    (handleBarCodeScanned (some "s1") ⟨"C1", none⟩ initialState foreignDb).1.error
      = some "Item belongs to different studio" ∧
    (handleBarCodeScanned (some "s1") ⟨"C1", none⟩ initialState sampleDb).1.error = none ∧
    (handleBarCodeScanned (some "s1") ⟨"C1", none⟩ initialState sampleDb).1.step = FlowStep.confirm := by
  have h1 := scan_validation_order "s1" ⟨"C1", none⟩ initialState foreignDb camUnit foreignEquip
    (by decide) rfl rfl (by decide) (by decide)
  have h2 := scan_validation_order "s1" ⟨"C1", none⟩ initialState sampleDb camUnit camEquip
    (by decide) rfl rfl (by decide) (by decide)
  refine ⟨by decide, rfl, rfl, by decide, by decide, by decide,
          (h1.1 (by decide)).1, ?_, ?_⟩
  · exact (h2.2.2.2.2 (by decide) (by decide) (fun _ => by decide) (by decide)).1
  · exact (h2.2.2.2.2 (by decide) (by decide) (fun _ => by decide) (by decide)).2.1

/-- C5: scanning a unit whose owning equipment's studio differs from the
supplied active studio context yields the WrongStudio rejection, leaves
the session where it was, and performs no remote write (the store is
returned unchanged). -/
theorem wrong_studio_scan_rejected_without_write
    (s : String) (d : ScanData) (st : SessionState) (db : Db)
    (unit : EquipmentItemRow) (equip : EquipmentRow)
    (hs : s ≠ "")
    (hsc : st.scanned = false) (hpr : st.processing = false)
    (hunit : findSingleUnit db (resolveUnitId d) d.text = some unit)
    (hequip : findEquipment db.equipment unit.equipment_id = some equip)
    (hne : equip.studio_id ≠ s) :
    (handleBarCodeScanned (some s) d st db).1.error = some "Item belongs to different studio" ∧
    (handleBarCodeScanned (some s) d st db).2 = db ∧
    (handleBarCodeScanned (some s) d st db).1.step = st.step ∧
    (handleBarCodeScanned (some s) d st db).1.currentItem = st.currentItem := by
  refine ⟨?_, ?_, ?_, ?_⟩ <;>
    simp [handleBarCodeScanned, hsc, hpr, hunit, hequip, studioMismatch, hs, hne]

/-- Witness for C5: scanning the s9-owned unit under studio s1 is
rejected and the store is unchanged. -/
theorem wrong_studio_scan_rejected_without_write_witness :
    ("s1" : String) ≠ "" ∧
    findSingleUnit foreignDb "C1" "C1" = some camUnit ∧
    foreignEquip.studio_id ≠ "s1" ∧
    (handleBarCodeScanned (some "s1") ⟨"C1", none⟩ initialState foreignDb).1.error
      = some "Item belongs to different studio" ∧
    (handleBarCodeScanned (some "s1") ⟨"C1", none⟩ initialState foreignDb).2 = foreignDb := by
  have h := wrong_studio_scan_rejected_without_write "s1" ⟨"C1", none⟩ initialState foreignDb
    camUnit foreignEquip (by decide) rfl rfl (by decide) (by decide) (by decide)
  exact ⟨by decide, by decide, by decide, h.1, h.2.1⟩

/-- A store in which the scanned payload "A" matches one unit by id and
a different unit by code. -/
def collideDb : Db :=
  { equipment := [],
    equipment_items :=
      [{ id := "A", equipment_id := "e1", studio_id := "s1", code := "X",
         code_type := "qr", status := "available" },
       { id := "B", equipment_id := "e1", studio_id := "s1", code := "A",
         code_type := "qr", status := "available" }],
    transactions := [], storage := [] }

/-- Counterexample to C6 as stated: the payload "A" matches one unit by
id and another by code, so the single-row lookup fails and the scan
reports NotFound even though units match by id and by code. -/
theorem notfound_despite_matching_units :
    (collideDb.equipment_items.any (fun u => u.id == "A")) = true ∧
    (collideDb.equipment_items.any (fun u => u.code == "A")) = true ∧
    resolveUnitId ⟨"A", none⟩ = "A" ∧
    (handleBarCodeScanned (some "s1") ⟨"A", none⟩ initialState collideDb).1.error
      = some "Item not found" := by
  decide

/-- C6 as amended: code resolution uses the structured payload's item
field as the unit id when the field is present and non-empty, falls back
to the literal payload on parse failure, and reports NotFound exactly
when the id-or-code lookup does not return exactly one row (none, or
more than one). -/
theorem code_resolution_semantics
    (studioId : Option String) (d : ScanData) (st : SessionState) (db : Db)
    (hsc : st.scanned = false) (hpr : st.processing = false) :
    (d.parsed = none → resolveUnitId d = d.text) ∧
    (∀ it, d.parsed = some (some it) → it ≠ "" → resolveUnitId d = it) ∧
    (((handleBarCodeScanned studioId d st db).1.error = some "Item not found") ↔
      (db.equipment_items.filter (fun u => u.id == resolveUnitId d || u.code == d.text)).length ≠ 1) := by
  refine ⟨?_, ?_, ?_⟩
  · intro h; simp [resolveUnitId, h]
  · intro it h hne; simp [resolveUnitId, h, hne]
  · rcases hl : db.equipment_items.filter (fun u => u.id == resolveUnitId d || u.code == d.text)
      with _ | ⟨a, _ | ⟨b, tl⟩⟩
    · have hfs : findSingleUnit db (resolveUnitId d) d.text = none := by
        simp [findSingleUnit, hl]
      simp [handleBarCodeScanned, hsc, hpr, hfs, hl]
    · have hfs : findSingleUnit db (resolveUnitId d) d.text = some a := by
        simp [findSingleUnit, hl]
      rw [hl]
      simp only [List.length_singleton, ne_eq, not_true_eq_false, iff_false]
      cases he : findEquipment db.equipment a.equipment_id
      · simp [handleBarCodeScanned, hsc, hpr, hfs, he]
      · simp only [handleBarCodeScanned, hsc, hpr, hfs, he]
        simp
        split_ifs <;> simp
    · have hfs : findSingleUnit db (resolveUnitId d) d.text = none := by
        simp [findSingleUnit, hl]
      simp [handleBarCodeScanned, hsc, hpr, hfs, hl]

/-- Witness for the amended C6: a raw payload resolves to itself; the
single-match scan does not report NotFound, and the double-match scan
does. -/
theorem code_resolution_semantics_witness :
    initialState.scanned = false ∧ initialState.processing = false ∧
    resolveUnitId ⟨"C1", none⟩ = "C1" ∧
    ((handleBarCodeScanned (some "s1") ⟨"C1", none⟩ initialState sampleDb).1.error
        = some "Item not found" ↔
      (sampleDb.equipment_items.filter (fun u => u.id == "C1" || u.code == "C1")).length ≠ 1) ∧
    ((handleBarCodeScanned (some "s1") ⟨"A", none⟩ initialState collideDb).1.error
        = some "Item not found" ↔
      (collideDb.equipment_items.filter (fun u => u.id == "A" || u.code == "A")).length ≠ 1) := by
  have h1 := code_resolution_semantics (some "s1") ⟨"C1", none⟩ initialState sampleDb rfl rfl
  have h2 := code_resolution_semantics (some "s1") ⟨"A", none⟩ initialState collideDb rfl rfl
  refine ⟨rfl, rfl, h1.1 rfl, ?_, ?_⟩
  · simpa [resolveUnitId] using h1.2.2
  · simpa [resolveUnitId] using h2.2.2

/-- C9: when the studioId search parameter is absent or empty, the
studio-membership check is skipped: a resolvable unit owned by any
studio passes validation (no WrongStudio rejection), is staged for
confirmation, and can then be committed successfully. -/
theorem scan_without_studio_context_passes
    (studioId : Option String) (user : Option String) (uid : String) (now : Nat)
    (d : ScanData) (st : SessionState) (db : Db)
    (unit : EquipmentItemRow) (equip : EquipmentRow)
    (hstudio : studioId = none ∨ studioId = some "")
    (hsc : st.scanned = false) (hpr : st.processing = false)
    (hunit : findSingleUnit db (resolveUnitId d) d.text = some unit)
    (hequip : findEquipment db.equipment unit.equipment_id = some equip)
    (hcart : unit.id ∉ st.cart.map CartItem.unitId)
    (hco : st.mode = Mode.checkout → unit.status = "available")
    (hci : st.mode = Mode.checkin → unit.status ≠ "available")
    (huser : user = some uid) :
    (handleBarCodeScanned studioId d st db).1.error = none ∧
    (handleBarCodeScanned studioId d st db).1.step = FlowStep.confirm ∧
    (handleBarCodeScanned studioId d st db).1.currentItem =
      some { unitId := unit.id, equipmentId := equip.id, code := unit.code,
             equipmentName := equip.name, photoUri := none } ∧
    (confirmAndSubmit studioId user now noFail (handleBarCodeScanned studioId d st db).1
        (handleBarCodeScanned studioId d st db).2).state.step = FlowStep.success := by
  have hsm : studioMismatch studioId equip.studio_id = false := by
    rcases hstudio with h | h <;> simp [studioMismatch, h]
  have hmain : (handleBarCodeScanned studioId d st db).1.currentItem =
      some { unitId := unit.id, equipmentId := equip.id, code := unit.code,
             equipmentName := equip.name, photoUri := none } := by
    cases hm : st.mode
    · simp [handleBarCodeScanned, hsc, hpr, hunit, hequip, hsm, hcart, hm, hco hm]
    · simp [handleBarCodeScanned, hsc, hpr, hunit, hequip, hsm, hcart, hm, hci hm]
  refine ⟨?_, ?_, hmain, ?_⟩
  · cases hm : st.mode
    · simp [handleBarCodeScanned, hsc, hpr, hunit, hequip, hsm, hcart, hm, hco hm]
    · simp [handleBarCodeScanned, hsc, hpr, hunit, hequip, hsm, hcart, hm, hci hm]
  · cases hm : st.mode
    · simp [handleBarCodeScanned, hsc, hpr, hunit, hequip, hsm, hcart, hm, hco hm]
    · simp [handleBarCodeScanned, hsc, hpr, hunit, hequip, hsm, hcart, hm, hci hm]
  · simp [confirmAndSubmit, hmain, huser, noFail]

/-- Witness for C9: with no studioId supplied, the s9-owned unit is
staged without a WrongStudio rejection and the commit succeeds. -/
theorem scan_without_studio_context_passes_witness :
    foreignEquip.studio_id = "s9" ∧
    findSingleUnit foreignDb "C1" "C1" = some camUnit ∧
    findEquipment foreignDb.equipment "e1" = some foreignEquip ∧
    (handleBarCodeScanned none ⟨"C1", none⟩ initialState foreignDb).1.error = none ∧
    (handleBarCodeScanned none ⟨"C1", none⟩ initialState foreignDb).1.step = FlowStep.confirm ∧
    (confirmAndSubmit none (some "usr") 111 noFail
        (handleBarCodeScanned none ⟨"C1", none⟩ initialState foreignDb).1
        (handleBarCodeScanned none ⟨"C1", none⟩ initialState foreignDb).2).state.step
      = FlowStep.success := by
  have h := scan_without_studio_context_passes none (some "usr") "usr" 111 ⟨"C1", none⟩
    initialState foreignDb camUnit foreignEquip (Or.inl rfl) rfl rfl (by decide) (by decide)
    (by decide) (fun _ => by decide) (by decide) rfl
  exact ⟨by decide, by decide, by decide, h.1, h.2.1, h.2.2.2⟩

/-- C8: creating equipment with quantity N inserts an equipment record
with total_quantity = N and available_quantity = N together with exactly
N unit records all available, and merging N units into existing
equipment inserts N available units and raises both quantities by N;
the creation establishes the consistency invariant (checked_out count =
total - available, 0 ≤ available ≤ total) for the new record and the
merge preserves it for the target. -/
theorem equipment_creation_and_merge_invariant
    (studioId : String) (form : AddForm) (p : String) (now : Nat)
    (newEquipId : String) (itemId : Nat → String) (rand : Nat → String) (db : Db)
    (target : SimilarEquipment) (r : EquipmentRow) (N : Int)
    (hq : effQuantity form.quantity = N) (hN : 0 < N)
    (hname : jsTrim form.name ≠ "")
    (hfreshU : ∀ u ∈ db.equipment_items, u.equipment_id ≠ newEquipId)
    (hr : r ∈ db.equipment) (hrid : r.id = target.id)
    (hrt : r.total_quantity = target.total_quantity)
    (hra : r.available_quantity = target.available_quantity)
    (hinv : quantityInvariant db r) :
    (∃ row newItems,
      (handleSubmit studioId form (some p) now newEquipId itemId rand db).db.equipment
        = db.equipment ++ [row] ∧
      (handleSubmit studioId form (some p) now newEquipId itemId rand db).db.equipment_items
        = db.equipment_items ++ newItems ∧
      row.id = newEquipId ∧ row.total_quantity = N ∧ row.available_quantity = N ∧
      newItems.length = N.toNat ∧
      (∀ u ∈ newItems, u.status = "available" ∧ u.equipment_id = newEquipId) ∧
      quantityInvariant (handleSubmit studioId form (some p) now newEquipId itemId rand db).db row) ∧
    (∃ newItems,
      (handleMergeConfirm studioId form target itemId rand db).db.equipment_items
        = db.equipment_items ++ newItems ∧
      newItems.length = N.toNat ∧
      (∀ u ∈ newItems, u.status = "available" ∧ u.equipment_id = target.id) ∧
      { r with total_quantity := target.total_quantity + N,
               available_quantity := target.available_quantity + N }
        ∈ (handleMergeConfirm studioId form target itemId rand db).db.equipment ∧
      quantityInvariant (handleMergeConfirm studioId form target itemId rand db).db
        { r with total_quantity := target.total_quantity + N,
                 available_quantity := target.available_quantity + N }) := by
  constructor
  · refine ⟨{ id := newEquipId, studio_id := studioId, name := jsTrim form.name,
              category := form.category, total_quantity := N, available_quantity := N,
              sku := if jsTrim form.sku = "" then none else some (jsTrim form.sku),
              photo_url := some (getPublicUrl "equipment-photos"
                (studioId ++ "/" ++ toString now ++ ".jpg")),
              notes := if jsTrim form.notes = "" then none else some (jsTrim form.notes) },
            (List.range N.toNat).map (fun i =>
              ({ id := itemId i, equipment_id := newEquipId, studio_id := studioId,
                 code := unitCode (if form.sku = "" then (form.name.take 3).toUpper else form.sku)
                   (padStart3 (toString (i + 1))) (rand i),
                 code_type := "qr", status := "available" } : EquipmentItemRow)),
            ?_, ?_, rfl, rfl, rfl, by simp, ?_, ?_⟩
    · simp [handleSubmit, hname, hq]
    · simp [handleSubmit, hname, hq]
    · intro u hu
      rcases List.mem_map.mp hu with ⟨i, _, rfl⟩
      exact ⟨rfl, rfl⟩
    · refine ⟨?_, ?_, ?_⟩
      · have hcount : checkedOutCount
            (handleSubmit studioId form (some p) now newEquipId itemId rand db).db newEquipId = 0 := by
          unfold checkedOutCount
          have hitems : (handleSubmit studioId form (some p) now newEquipId itemId rand db).db.equipment_items
              = db.equipment_items ++ (List.range N.toNat).map (fun i =>
                ({ id := itemId i, equipment_id := newEquipId, studio_id := studioId,
                   code := unitCode (if form.sku = "" then (form.name.take 3).toUpper else form.sku)
                     (padStart3 (toString (i + 1))) (rand i),
                   code_type := "qr", status := "available" } : EquipmentItemRow)) := by
            simp [handleSubmit, hname, hq]
          rw [hitems, List.filter_append]
          have h1 : db.equipment_items.filter
              (fun u => u.equipment_id == newEquipId && u.status == "checked_out") = [] := by
            refine List.filter_eq_nil_iff.mpr ?_
            intro u hu
            simp [hfreshU u hu]
          have h2 : ((List.range N.toNat).map (fun i =>
              ({ id := itemId i, equipment_id := newEquipId, studio_id := studioId,
                 code := unitCode (if form.sku = "" then (form.name.take 3).toUpper else form.sku)
                   (padStart3 (toString (i + 1))) (rand i),
                 code_type := "qr", status := "available" } : EquipmentItemRow))).filter
              (fun u => u.equipment_id == newEquipId && u.status == "checked_out") = [] := by
            refine List.filter_eq_nil_iff.mpr ?_
            intro u hu
            rcases List.mem_map.mp hu with ⟨i, _, rfl⟩
            simp
          rw [h1, h2]
          rfl
        rw [hcount]
        simp
      · exact hN.le
      · exact le_refl N
  · refine ⟨(List.range N.toNat).map (fun i =>
        ({ id := itemId i, equipment_id := target.id, studio_id := studioId,
           code := unitCode (if form.sku = "" then (target.name.take 3).toUpper else form.sku)
             (padStart3 (toString (target.total_quantity + Int.ofNat i + 1))) (rand i),
           code_type := "qr", status := "available" } : EquipmentItemRow)),
      ?_, by simp, ?_, ?_, ?_⟩
    · simp [handleMergeConfirm, hq]
    · intro u hu
      rcases List.mem_map.mp hu with ⟨i, _, rfl⟩
      exact ⟨rfl, rfl⟩
    · have he : (handleMergeConfirm studioId form target itemId rand db).db.equipment
          = db.equipment.map (fun r0 =>
              if r0.id = target.id then
                { r0 with total_quantity := target.total_quantity + N,
                          available_quantity := target.available_quantity + N }
              else r0) := by
        simp [handleMergeConfirm, hq]
      rw [he]
      have hmm := List.mem_map_of_mem (fun r0 =>
          if r0.id = target.id then
            { r0 with total_quantity := target.total_quantity + N,
                      available_quantity := target.available_quantity + N }
          else r0) hr
      simpa [hrid] using hmm
    · refine ⟨?_, ?_, ?_⟩
      · have hitems : (handleMergeConfirm studioId form target itemId rand db).db.equipment_items
            = db.equipment_items ++ (List.range N.toNat).map (fun i =>
              ({ id := itemId i, equipment_id := target.id, studio_id := studioId,
                 code := unitCode (if form.sku = "" then (target.name.take 3).toUpper else form.sku)
                   (padStart3 (toString (target.total_quantity + Int.ofNat i + 1))) (rand i),
                 code_type := "qr", status := "available" } : EquipmentItemRow)) := by
          simp [handleMergeConfirm, hq]
        show (((handleMergeConfirm studioId form target itemId rand db).db.equipment_items.filter
            (fun u => u.equipment_id == r.id && u.status == "checked_out")).length : Int)
          = (target.total_quantity + N) - (target.available_quantity + N)
        rw [hitems, List.filter_append]
        have h2 : ((List.range N.toNat).map (fun i =>
            ({ id := itemId i, equipment_id := target.id, studio_id := studioId,
               code := unitCode (if form.sku = "" then (target.name.take 3).toUpper else form.sku)
                 (padStart3 (toString (target.total_quantity + Int.ofNat i + 1))) (rand i),
               code_type := "qr", status := "available" } : EquipmentItemRow))).filter
            (fun u => u.equipment_id == r.id && u.status == "checked_out") = [] := by
          refine List.filter_eq_nil_iff.mpr ?_
          intro u hu
          rcases List.mem_map.mp hu with ⟨i, _, rfl⟩
          simp
        rw [h2]
        have hc := hinv.1
        unfold checkedOutCount at hc
        simp only [List.append_nil]
        omega
      · show 0 ≤ target.available_quantity + N
        have h0 := hinv.2.1
        rw [hra] at h0
        omega
      · show target.available_quantity + N ≤ target.total_quantity + N
        have h0 := hinv.2.2
        rw [hra, hrt] at h0
        omega

/-- Form input for the witness: quantity 2, no SKU. -/
def testForm : AddForm :=
  { name := "Cam X", category := "Camera", quantity := some 2, sku := "", notes := "" }

/-- Merge target as read by the similar-equipment search: `camEquip`. -/
def testTarget : SimilarEquipment :=
  { id := "e1", name := "Cam", category := "Camera",
    total_quantity := 5, available_quantity := 3, photo_url := none }

/-- Server-assigned unit ids for the witness. -/
def testItemId : Nat → String := fun i => "ni" ++ toString i

/-- Code suffixes for the witness. -/
def testRand : Nat → String := fun _ => "ZZZZ"

/-- A store satisfying the consistency invariant for `camEquip`: of 5
total units 3 are available and 2 are checked out. -/
def mergeDb : Db :=
  { equipment := [camEquip],
    equipment_items :=
      [camUnit,
       { id := "u2", equipment_id := "e1", studio_id := "s1", code := "C2",
         code_type := "qr", status := "checked_out" },
       { id := "u3", equipment_id := "e1", studio_id := "s1", code := "C3",
         code_type := "qr", status := "checked_out" }],
    transactions := [], storage := [] }

/-- Witness for C8: creating "Cam X" with quantity 2 and merging 2 units
into `camEquip` (5 total / 3 available / 2 checked out) both yield
stores satisfying the consistency invariant. -/
theorem equipment_creation_and_merge_invariant_witness :
    effQuantity testForm.quantity = 2 ∧ (0 : Int) < 2 ∧ jsTrim testForm.name ≠ "" ∧
    (∀ u ∈ mergeDb.equipment_items, u.equipment_id ≠ "ne1") ∧
    camEquip ∈ mergeDb.equipment ∧ camEquip.id = testTarget.id ∧
    camEquip.total_quantity = testTarget.total_quantity ∧
    camEquip.available_quantity = testTarget.available_quantity ∧
    quantityInvariant mergeDb camEquip ∧
    (∃ row newItems,
      (handleSubmit "s1" testForm (some "fq") 5 "ne1" testItemId testRand mergeDb).db.equipment
        = mergeDb.equipment ++ [row] ∧
      (handleSubmit "s1" testForm (some "fq") 5 "ne1" testItemId testRand mergeDb).db.equipment_items
        = mergeDb.equipment_items ++ newItems ∧
      row.id = "ne1" ∧ row.total_quantity = 2 ∧ row.available_quantity = 2 ∧
      newItems.length = (2 : Int).toNat ∧
      (∀ u ∈ newItems, u.status = "available" ∧ u.equipment_id = "ne1") ∧
      quantityInvariant (handleSubmit "s1" testForm (some "fq") 5 "ne1" testItemId testRand mergeDb).db row) ∧
    (∃ newItems,
      (handleMergeConfirm "s1" testForm testTarget testItemId testRand mergeDb).db.equipment_items
        = mergeDb.equipment_items ++ newItems ∧
      newItems.length = (2 : Int).toNat ∧
      (∀ u ∈ newItems, u.status = "available" ∧ u.equipment_id = testTarget.id) ∧
      { camEquip with total_quantity := testTarget.total_quantity + 2,
                      available_quantity := testTarget.available_quantity + 2 }
        ∈ (handleMergeConfirm "s1" testForm testTarget testItemId testRand mergeDb).db.equipment ∧
      quantityInvariant (handleMergeConfirm "s1" testForm testTarget testItemId testRand mergeDb).db
        { camEquip with total_quantity := testTarget.total_quantity + 2,
                        available_quantity := testTarget.available_quantity + 2 }) := by
  have h := equipment_creation_and_merge_invariant "s1" testForm "fq" 5 "ne1" testItemId testRand
    mergeDb testTarget camEquip 2 (by decide) (by decide) (by decide) (by decide) (by decide)
    rfl rfl rfl (by decide)
  exact ⟨by decide, by decide, by decide, by decide, by decide, rfl, rfl, rfl, by decide,
         h.1, h.2⟩

end StudioInventory
